import Mathlib

/-!
Verification of the single-route HTTP server in
`src/comparisons/empty-ok-all/rust/src/main.rs`:

```rust
use actix_web::{web, App, HttpServer};

#[actix_web::main]
async fn main() -> std::io::Result<()> {
    HttpServer::new(|| {
        App::new()
            .service(web::resource("/").to(|| async { "" }))
    })
    .bind(("127.0.0.1", 8080))?
    .run()
    .await
}
```

The application code registers a single resource at path `"/"` whose
handler is the closure `|| async { "" }`: it takes no extractors (it reads
no field of the request) and returns the string slice `""`.  Everything
else — how a `&str` return value is converted into an HTTP response, what
happens on an unmatched path, the semantics of `bind`, `run`, and the
process exit code — is behaviour of the actix-web framework and of the
operating system, whose code is not part of this repository; those parts
are modelled from the specification and from the framework's documented
defaults, each such definition carrying a `Modelled from the spec:` doc
comment.
-/

/-- An HTTP request as delivered to the application: method, path, header
list and raw body bytes.  The handler in `main.rs` consults none of these
fields. -/
structure HttpRequest where
  method : String
  path : String
  headers : List (String × String)
  body : List Nat
deriving DecidableEq, Repr

/-- An HTTP response: numeric status code, header list, body string. -/
structure HttpResponse where
  status : Nat
  headers : List (String × String)
  body : String
deriving DecidableEq, Repr

/-- Modelled from the spec: actix-web's `Responder` implementation for
`&str` (framework code, absent from `src/`).  A `&str` return value
becomes a `200` response whose body is the string, with the framework's
default content headers: `Content-Type: text/plain; charset=utf-8` and a
`Content-Length` equal to the byte length of the string. -/
def strResponder (s : String) : HttpResponse :=
  { status := 200
    headers := [("content-type", "text/plain; charset=utf-8"),
                ("content-length", toString s.utf8ByteSize)]
    body := s }

/-- An error a route handler could surface to the framework (a panic or an
error value).  The handler of `main.rs` never produces one, but the type
is part of the framework's `Handler`/`Responder` contract. -/
inductive HandlerError where
  | panicked (msg : String)
  | errored (msg : String)
deriving DecidableEq, Repr

/-- A registered route: a path pattern and a handler run on a matched
request, which either yields a response or fails. -/
structure Route where
  path : String
  handle : HttpRequest → Except HandlerError HttpResponse

/-- The root handler of `main.rs`: the closure `|| async { "" }`.  It has
no extractor arguments, so the request is ignored; the async body is the
lone expression `""`, which contains no fallible operation, and the
framework converts it with the `&str` responder. -/
def rootHandler (_req : HttpRequest) : Except HandlerError HttpResponse :=
  Except.ok (strResponder "")

/-- The route table built by the `App` factory in `main.rs`:
`App::new().service(web::resource("/").to(|| async { "" }))`, a single
resource at `"/"`.  `web::resource(..).to(..)` registers the handler for
every method. -/
def appRoutes : List Route :=
  [{ path := "/", handle := rootHandler }]

/-- Modelled from the spec: the framework's default response for a request
whose path matches no registered route — `404 Not Found` with an empty
body. -/
def defaultNotFound : HttpResponse :=
  { status := 404, headers := [], body := "" }

/-- Modelled from the spec: the framework's default response when a
matched handler fails (never reached by this application). -/
def internalServerError : HttpResponse :=
  { status := 500, headers := [], body := "" }

/-- Route dispatch: find the first registered route whose path equals the
request path and run its handler; with no match, the framework's default
not-found response is used (as a successful dispatch outcome). -/
def dispatchE (routes : List Route) (req : HttpRequest) :
    Except HandlerError HttpResponse :=
  match routes.find? (fun r => r.path == req.path) with
  | some r => r.handle req
  | none => Except.ok defaultNotFound

/-- The complete request-to-response function of the application: dispatch
through the route table of `main.rs`, mapping a handler failure to the
framework's default error response. -/
def handleRequest (req : HttpRequest) : HttpResponse :=
  match dispatchE appRoutes req with
  | Except.ok resp => resp
  | Except.error _ => internalServerError

/-- The process environment a run of the program starts from:
command-line arguments, environment variables, the set of TCP addresses
already bound by other processes, and whether the process may bind local
ports at all. -/
structure Env where
  args : List String
  envVars : List (String × String)
  addrsInUse : List (String × Nat)
  bindPermitted : Bool
deriving DecidableEq, Repr

/-- The literal address passed to `.bind(("127.0.0.1", 8080))` in
`main.rs`. -/
def bindAddr : String × Nat := ("127.0.0.1", 8080)

/-- Modelled from the spec: the ways creating the listening socket can
fail — port already in use, permission denied. -/
inductive BindError where
  | addrInUse
  | permissionDenied
deriving DecidableEq, Repr

/-- A successfully bound listening socket, recording its address. -/
structure Listener where
  addr : String × Nat
deriving DecidableEq, Repr

/-- Modelled from the spec: binding a TCP listener to an address — fails
with `addrInUse` if another process holds the address, with
`permissionDenied` if the process may not bind, and otherwise yields a
listener on that address. -/
def bindListener (env : Env) (addr : String × Nat) : Except BindError Listener :=
  if addr ∈ env.addrsInUse then Except.error BindError.addrInUse
  else if !env.bindPermitted then Except.error BindError.permissionDenied
  else Except.ok { addr := addr }

/-- Whether a run of the program is eventually terminated by an external
graceful stop, or left running forever. -/
inductive RunEnd where
  | externalStop
  | neverStopped
deriving DecidableEq, Repr

/-- Modelled from the spec: `HttpServer::run().await` blocks serving
connections indefinitely; it only returns — cleanly — when the process is
gracefully terminated from outside.  `none` means the call never
returns. -/
def runServer (_l : Listener) (r : RunEnd) : Option Unit :=
  match r with
  | RunEnd.externalStop => some ()
  | RunEnd.neverStopped => none

/-- What a whole execution of the process observably does: terminate with
an exit code after serving some number of responses, or keep serving
forever on a bound listener. -/
inductive ProcessOutcome where
  | exited (code : Nat) (responsesServed : Nat)
  | servingForever (l : Listener)
deriving DecidableEq, Repr

/-- The entry point of `main.rs` as a function of the environment and of
whether the run is externally stopped: bind the fixed address (the `?`
propagates a bind failure out of `main`, which the runtime turns into a
nonzero exit code with nothing served), then `run().await`; a clean
return from `run` exits with code `0`.  Note the arguments and
environment variables in `env` are never consulted. -/
def mainOutcome (env : Env) (r : RunEnd) : ProcessOutcome :=
  match bindListener env bindAddr with
  | Except.error _ => ProcessOutcome.exited 1 0
  | Except.ok l =>
      match runServer l r with
      | some _ => ProcessOutcome.exited 0 0
      | none => ProcessOutcome.servingForever l

/-- The exit code of an execution, when it terminates at all. -/
def exitCode : ProcessOutcome → Option Nat
  | ProcessOutcome.exited c _ => some c
  | ProcessOutcome.servingForever _ => none

/-- Whether an execution terminated abnormally (nonzero exit code). -/
def abnormalExit (o : ProcessOutcome) : Prop :=
  ∃ c, exitCode o = some c ∧ c ≠ 0

/-- The mutable state of a running server process between requests: the
listener it owns and the requests of the other in-flight connections.
The handler closure of `main.rs` captures nothing, so serving one request
is a pure function of the request alone. -/
structure ServerState where
  listener : Listener
  otherConnections : List HttpRequest
deriving DecidableEq, Repr

/-- Serving one request: the response is computed by `handleRequest` and
the server state is passed through untouched — the handler reads and
writes no shared state. -/
def serveOne (st : ServerState) (req : HttpRequest) :
    ServerState × HttpResponse :=
  (st, handleRequest req)

/-- Header lookup in a response, case-sensitively on the lowercase names
used throughout this development. -/
def headerValue (resp : HttpResponse) (name : String) : Option String :=
  (resp.headers.find? (fun p => p.1 == name)).map Prod.snd

/-- A convenient concrete request: `GET /` with no headers and no body. -/
def getRoot : HttpRequest :=
  { method := "GET", path := "/", headers := [], body := [] }

/-- A convenient concrete request: `POST /` with a nonempty body. -/
def postRoot : HttpRequest :=
  { method := "POST", path := "/", headers := [("x-a", "b")], body := [1, 2, 3] }

/-- A convenient concrete request: `GET /missing`. -/
def getMissing : HttpRequest :=
  { method := "GET", path := "/missing", headers := [], body := [] }

/-- A concrete environment in which `127.0.0.1:8080` is already in use. -/
def envInUse : Env :=
  { args := [], envVars := [], addrsInUse := [("127.0.0.1", 8080)],
    bindPermitted := true }

/-- A concrete environment in which the bind can succeed. -/
def envFree : Env :=
  { args := [], envVars := [], addrsInUse := [], bindPermitted := true }

/- ## Theorems -/

/-- C1: every request whose path is `/` gets status 200 and an empty body,
and in particular `GET http://127.0.0.1:8080/` yields `200 OK` with
`Content-Length: 0`. -/
theorem c1_root_ok (req : HttpRequest) (h : req.path = "/") :
    (handleRequest req).status = 200 ∧
      (handleRequest req).body.length = 0 ∧
      (handleRequest getRoot).status = 200 ∧
      headerValue (handleRequest getRoot) "content-length" = some "0" ∧
      (handleRequest getRoot).body = "" := by
  refine ⟨?_, ?_, by decide, by decide, by decide⟩ <;>
    simp [handleRequest, dispatchE, appRoutes, h, rootHandler, strResponder]

/-- Witness for C1 at the concrete request `GET /`. -/
theorem c1_root_ok_witness :
    (handleRequest getRoot).status = 200 ∧
      (handleRequest getRoot).body.length = 0 ∧
      (handleRequest getRoot).status = 200 ∧
      headerValue (handleRequest getRoot) "content-length" = some "0" ∧
      (handleRequest getRoot).body = "" :=
  c1_root_ok getRoot rfl

/-- C2: any two requests to `/` — whatever their methods, headers and
bodies — receive the same response body, the empty string; in particular a
`POST` to `/` with an arbitrary body gets 200 with an empty body, exactly
like a `GET`. -/
theorem c2_handler_ignores_request (req₁ req₂ : HttpRequest)
    (h₁ : req₁.path = "/") (h₂ : req₂.path = "/") :
    (handleRequest req₁).body = (handleRequest req₂).body ∧
      (handleRequest req₁).body = "" ∧
      (handleRequest postRoot).status = 200 ∧
      (handleRequest postRoot).body = "" ∧
      handleRequest postRoot = handleRequest getRoot := by
  refine ⟨?_, ?_, by decide, by decide, by decide⟩ <;>
    simp [handleRequest, dispatchE, appRoutes, h₁, h₂, rootHandler, strResponder]

/-- Witness for C2 at the concrete pair (`GET /`, `POST /` with a body). -/
theorem c2_handler_ignores_request_witness :
    (handleRequest getRoot).body = (handleRequest postRoot).body ∧
      (handleRequest getRoot).body = "" ∧
      (handleRequest postRoot).status = 200 ∧
      (handleRequest postRoot).body = "" ∧
      handleRequest postRoot = handleRequest getRoot :=
  c2_handler_ignores_request getRoot postRoot rfl rfl

/-- C3: a request whose path is not `/` is answered by the framework's
default not-found response: status 404, hence not 200. -/
theorem c3_other_paths_not_found (req : HttpRequest) (h : req.path ≠ "/") :
    handleRequest req = defaultNotFound ∧
      (handleRequest req).status = 404 ∧ (handleRequest req).status ≠ 200 := by
  have hb : (("/" : String) == req.path) = false := by
    rw [beq_eq_false_iff_ne]
    exact fun hEq => h hEq.symm
  have hfind : appRoutes.find? (fun r => r.path == req.path) = none := by
    simp [appRoutes, List.find?, hb]
  refine ⟨?_, ?_, ?_⟩ <;> simp [handleRequest, dispatchE, hfind, defaultNotFound]

/-- Witness for C3 at the concrete request `GET /missing`. -/
theorem c3_other_paths_not_found_witness :
    handleRequest getMissing = defaultNotFound ∧
      (handleRequest getMissing).status = 404 ∧
      (handleRequest getMissing).status ≠ 200 :=
  c3_other_paths_not_found getMissing (by decide)

/-- C4: when the bind fails the process exits at once with a nonzero exit
code having served no response, and a run that is gracefully stopped from
outside (after a successful bind) exits with code 0. -/
theorem c4_bind_failure_fatal (env : Env) (r : RunEnd) (e : BindError)
    (h : bindListener env bindAddr = Except.error e) :
    mainOutcome env r = ProcessOutcome.exited 1 0 ∧
      abnormalExit (mainOutcome env r) ∧
      (∀ env' l, bindListener env' bindAddr = Except.ok l →
        exitCode (mainOutcome env' RunEnd.externalStop) = some 0) := by
  refine ⟨?_, ?_, ?_⟩
  · simp [mainOutcome, h]
  · exact ⟨1, by simp [mainOutcome, h, exitCode], one_ne_zero⟩
  · intro env' l h'
    simp [mainOutcome, h', runServer, exitCode]

/-- Witness for C4: an environment in which 127.0.0.1:8080 is already in
use, so the bind fails. -/
theorem c4_bind_failure_fatal_witness :
    mainOutcome envInUse RunEnd.neverStopped = ProcessOutcome.exited 1 0 ∧
      abnormalExit (mainOutcome envInUse RunEnd.neverStopped) ∧
      (∀ env' l, bindListener env' bindAddr = Except.ok l →
        exitCode (mainOutcome env' RunEnd.externalStop) = some 0) :=
  c4_bind_failure_fatal envInUse RunEnd.neverStopped BindError.addrInUse rfl

/-- C5: bind failure is the only fatal condition — an execution exits
abnormally exactly when the initial bind fails; every per-request outcome
is an ordinary response (the handler never surfaces an error to the
framework). -/
theorem c5_bind_only_fatal (env : Env) (r : RunEnd) :
    (abnormalExit (mainOutcome env r) ↔
      ∃ e, bindListener env bindAddr = Except.error e) ∧
      (∀ req, ∃ resp, dispatchE appRoutes req = Except.ok resp) := by
  constructor
  · constructor
    · intro ⟨c, hc, hne⟩
      match hb : bindListener env bindAddr with
      | Except.error e => exact ⟨e, rfl⟩
      | Except.ok l =>
          exfalso
          cases r <;> simp [mainOutcome, hb, runServer, exitCode] at hc
          · exact hne (hc.symm)
    · intro ⟨e, he⟩
      exact ⟨1, by simp [mainOutcome, he, exitCode], one_ne_zero⟩
  · intro req
    by_cases h : req.path = "/"
    · exact ⟨strResponder "", by simp [dispatchE, appRoutes, h, rootHandler]⟩
    · refine ⟨defaultNotFound, ?_⟩
      have hb : (("/" : String) == req.path) = false := by
        rw [beq_eq_false_iff_ne]
        exact fun hEq => h hEq.symm
      have hfind : appRoutes.find? (fun rt => rt.path == req.path) = none := by
        simp [appRoutes, List.find?, hb]
      simp [dispatchE, hfind]

/-- C6: the bind target is the fixed constant `127.0.0.1:8080` — whatever
listener an execution obtains is bound to that address, and the whole
outcome of the program is unchanged by arbitrary command-line arguments
and environment variables, which are never consumed. -/
theorem c6_fixed_address (env : Env) (r : RunEnd) :
    bindAddr = ("127.0.0.1", 8080) ∧
      (∀ l, bindListener env bindAddr = Except.ok l → l.addr = ("127.0.0.1", 8080)) ∧
      (∀ args' vars',
        mainOutcome { env with args := args', envVars := vars' } r
          = mainOutcome env r) := by
  refine ⟨rfl, ?_, ?_⟩
  · intro l hl
    simp only [bindListener] at hl
    split at hl
    · exact absurd hl (by simp)
    · split at hl
      · exact absurd hl (by simp)
      · cases hl with
        | refl => rfl
  · intro args' vars'
    simp [mainOutcome, bindListener]

/-- C7: serving a request has no effect on the server state — the
listener and every other in-flight connection are exactly as before; the
only output is the response. -/
theorem c7_handler_no_side_effects (st : ServerState) (req : HttpRequest) :
    (serveOne st req).1 = st ∧
      (serveOne st req).1.listener = st.listener ∧
      (serveOne st req).1.otherConnections = st.otherConnections ∧
      (serveOne st req).2 = handleRequest req := by
  exact ⟨rfl, rfl, rfl, rfl⟩

/-- C8: once the bind succeeds and no external stop arrives, the process
never terminates on its own; and a second instance started while the
address is held fails its bind without changing what the first instance
answers to any request. -/
theorem c8_serves_forever (env : Env) (l : Listener)
    (h : bindListener env bindAddr = Except.ok l) :
    mainOutcome env RunEnd.neverStopped = ProcessOutcome.servingForever l ∧
      exitCode (mainOutcome env RunEnd.neverStopped) = none ∧
      (∀ env₂ r₂, bindAddr ∈ env₂.addrsInUse →
        mainOutcome env₂ r₂ = ProcessOutcome.exited 1 0 ∧
          ∀ st req, serveOne st req = (st, handleRequest req)) := by
  refine ⟨?_, ?_, ?_⟩
  · simp [mainOutcome, h, runServer]
  · simp [mainOutcome, h, runServer, exitCode]
  · intro env₂ r₂ hin
    refine ⟨?_, fun st req => rfl⟩
    simp [mainOutcome, bindListener, hin]

/-- Witness for C8: a free environment in which the bind succeeds. -/
theorem c8_serves_forever_witness :
    mainOutcome envFree RunEnd.neverStopped
      = ProcessOutcome.servingForever { addr := ("127.0.0.1", 8080) } ∧
      exitCode (mainOutcome envFree RunEnd.neverStopped) = none ∧
      (∀ env₂ r₂, bindAddr ∈ env₂.addrsInUse →
        mainOutcome env₂ r₂ = ProcessOutcome.exited 1 0 ∧
          ∀ st req, serveOne st req = (st, handleRequest req)) :=
  c8_serves_forever envFree { addr := ("127.0.0.1", 8080) } rfl

/-- C9: a request to `/` is answered with the framework's default content
headers for a `&str` responder: `Content-Length: 0` together with
`Content-Type: text/plain; charset=utf-8`. -/
theorem c9_default_content_headers (req : HttpRequest) (h : req.path = "/") :
    headerValue (handleRequest req) "content-length" = some "0" ∧
      headerValue (handleRequest req) "content-type"
        = some "text/plain; charset=utf-8" := by
  have hr : handleRequest req = strResponder "" := by
    simp [handleRequest, dispatchE, appRoutes, h, rootHandler]
  rw [hr]
  exact ⟨by decide, by decide⟩

/-- Witness for C9 at the concrete request `GET /`. -/
theorem c9_default_content_headers_witness :
    headerValue (handleRequest getRoot) "content-length" = some "0" ∧
      headerValue (handleRequest getRoot) "content-type"
        = some "text/plain; charset=utf-8" :=
  c9_default_content_headers getRoot rfl

/-- C10: the root handler is total and infallible — on every possible
request to `/`, dispatch resolves to a successful response (never a panic
or error value), namely the empty 200 response. -/
theorem c10_handler_infallible (req : HttpRequest) (h : req.path = "/") :
    dispatchE appRoutes req = Except.ok (strResponder "") ∧
      ∀ e, dispatchE appRoutes req ≠ Except.error e := by
  have hd : dispatchE appRoutes req = Except.ok (strResponder "") := by
    simp [dispatchE, appRoutes, h, rootHandler]
  exact ⟨hd, fun e he => by rw [hd] at he; exact Except.noConfusion he⟩

/-- Witness for C10 at the concrete request `POST /` with a body. -/
theorem c10_handler_infallible_witness :
    dispatchE appRoutes postRoot = Except.ok (strResponder "") ∧
      ∀ e, dispatchE appRoutes postRoot ≠ Except.error e :=
  c10_handler_infallible postRoot rfl
